import Mathlib

/-!
Verification of the orchestration and progress-synchronization engine of
`src/src/core/fitting.py` (`class FittingEngine`).

The engine drives nested cycle/epoch loops around an external search backend
(`IdeaSearcher` / `IdeaSearchFitter`), absorbing per-epoch failures, keeping a
versioned buffer of progress frames, a bounded audit log of call records, and
an API-call counter reconstructed from the backend's free-text diary.

The backend and the filesystem are external, so they enter the model as an
oracle: for each epoch the oracle says whether `ideasearcher.run` raised,
how the best-expression/best-score queries behaved, and what the diary read
produced.  Wall-clock timestamps and formatted log-message strings carried by
the records have no influence on any control flow and are omitted from the
record structures.  Python floats are modelled as rationals; the Python int
`total_api_calls` is modelled as an integer.
-/

namespace FittingEngine

/-- The configuration fields of `self.config` that `run_fitting` and
`_update_api_calls` consult: `cycle_num`, `unit_interaction_num` (epochs per
cycle), `island_num`, `shutdown_score`, `models`. -/
structure Config where
  cycle_num : Nat
  unit_interaction_num : Nat
  island_num : Nat
  shutdown_score : ℚ
  models : List String
deriving DecidableEq, Repr

/-- A progress frame as built at `fitting.py:337-346` (the wall-clock
`timestamp` and the formatted `log_message` are opaque text not modelled). -/
structure Frame where
  version : Nat
  cycle : Nat
  epoch : Nat
  total_epochs : Nat
  score : ℚ
  expression : String
deriving DecidableEq, Repr

/-- An audit record as built at `fitting.py:458-466` (`timestamp` omitted). -/
structure CallRecord where
  cycle : Nat
  model : String
  expression : String
  score : ℚ
  total_api_calls : ℤ
  status : String
deriving DecidableEq, Repr

/-- The final-best summary built in the `finally` block at
`fitting.py:405-411` (`timestamp` omitted). -/
structure FinalBest where
  score : ℚ
  expression : String
  total_cycles : Nat
  total_api_calls : ℤ
deriving DecidableEq, Repr

/-- The mutable engine state initialised in `FittingEngine.__init__`
(`fitting.py:51-64`). -/
structure EngineState where
  is_running : Bool
  should_stop : Bool
  current_cycle : Nat
  total_cycles : Nat
  best_score : ℚ
  best_expression : String
  total_api_calls : ℤ
  api_calls_log : List CallRecord
  score_history : List ℚ
  state_version : Nat
  progress_frames : List Frame
  final_best : Option FinalBest
deriving DecidableEq, Repr

/-- The state a fresh `FittingEngine(config)` starts from
(`fitting.py:51-64`). -/
def initialState : EngineState where
  is_running := false
  should_stop := false
  current_cycle := 0
  total_cycles := 0
  best_score := 0
  best_expression := ""
  total_api_calls := 0
  api_calls_log := []
  score_history := []
  state_version := 0
  progress_frames := []
  final_best := none

/-- Oracle outcome of the best-expression/best-score queries at
`fitting.py:321-322`: both succeed, `get_best_fit` raises, or `get_best_fit`
succeeds and `get_best_score` raises. -/
inductive QueryOutcome where
  | success (expr : String) (score : ℚ)
  | exprFail
  | scoreFail (expr : String)
deriving DecidableEq, Repr

/-- Oracle outcome of the diary access in `_update_api_calls`
(`fitting.py:417-432`): the diary exists and its scan yields `count` pattern
matches; the path is falsy or the file does not exist; or an exception is
raised while obtaining the path or reading the file. -/
inductive DiaryOutcome where
  | present (count : Nat)
  | missing
  | readError
deriving DecidableEq, Repr

/-- Oracle outcome of one `ideasearcher.run(1)` call plus its follow-ups
(`fitting.py:316-362`): the step raises an ordinary exception, raises
`KeyboardInterrupt`, or succeeds (with query and diary outcomes). -/
inductive StepOutcome where
  | stepFail
  | interrupt
  | ok (q : QueryOutcome) (d : DiaryOutcome)
deriving DecidableEq, Repr

/-- One epoch of oracle behaviour.  `externStop` records whether another
thread called `stop_fitting()` before this epoch's `should_stop` check at
`fitting.py:309`. -/
structure EpochEvent where
  externStop : Bool
  step : StepOutcome
deriving Repr

/-- One cycle of oracle behaviour.  `externStop` is the stop request observed
at the cycle-top check (`fitting.py:283`); `epochs` gives the per-epoch
behaviour, indexed by batch number. -/
structure CycleEvent where
  externStop : Bool
  epochs : Nat → EpochEvent

/-- Whether `initialize_fitter`/`initialize_searcher` (`fitting.py:275-276`)
succeeded (yielding the cycle oracle) or raised — an orchestration-level
fault caught only by the outer handler at `fitting.py:395`. -/
inductive InitOutcome where
  | ok (cycles : Nat → CycleEvent)
  | initFail

/-- Setting `should_stop` when a stop request is observed
(`stop_fitting`, `fitting.py:473-475`). -/
def noteStop (b : Bool) (s : EngineState) : EngineState :=
  if b then { s with should_stop := true } else s

/-- Effect of the query block at `fitting.py:320-330` on the state: on
success both fields are assigned; if `get_best_fit` raises neither is; if
`get_best_score` raises only `best_expression` was already assigned.  The
exception is caught and only a warning message is printed. -/
def applyQuery : QueryOutcome → EngineState → EngineState
  | .success e sc, s => { s with best_expression := e, best_score := sc }
  | .exprFail, s => s
  | .scoreFail e, s => { s with best_expression := e }

/-- Effect of the diary scan in `_update_api_calls` (`fitting.py:415-451`) on
`total_api_calls`: a successful read replaces the counter with the number of
pattern matches; a falsy/absent path leaves it unchanged (the `if` at line
418 is simply skipped); an exception triggers the estimate fallback
`total_api_calls += unit_interaction_num * island_num` at line 451. -/
def applyDiary (cfg : Config) : DiaryOutcome → EngineState → EngineState
  | .present n, s => { s with total_api_calls := (n : ℤ) }
  | .missing, s => s
  | .readError, s =>
      { s with total_api_calls :=
          s.total_api_calls + (cfg.unit_interaction_num * cfg.island_num : ℕ) }

/-- The call record built at `fitting.py:455-466`: `expression` falls back to
a placeholder when `best_expression` is empty, and `status` is `success`
exactly when `best_expression` is non-empty. -/
def mkCallRecord (cfg : Config) (s : EngineState) : CallRecord where
  cycle := s.current_cycle
  model := cfg.models.headD "Unknown"
  expression := if s.best_expression = "" then "尚未生成有效表达式" else s.best_expression
  score := s.best_score
  total_api_calls := s.total_api_calls
  status := if s.best_expression = "" then "no_expression" else "success"

/-- Appending the call record and trimming the log to its last 1000 entries
(`fitting.py:467-471`). -/
def pushRecord (cfg : Config) (s : EngineState) : EngineState :=
  let log := s.api_calls_log ++ [mkCallRecord cfg s]
  { s with api_calls_log := if log.length > 1000 then log.drop (log.length - 1000) else log }

/-- `FittingEngine._update_api_calls` (`fitting.py:413-471`): diary scan or
fallback, then unconditional append of one call record. -/
def update_api_calls (cfg : Config) (d : DiaryOutcome) (s : EngineState) : EngineState :=
  pushRecord cfg (applyDiary cfg d s)

/-- The progress frame built at `fitting.py:337-346` for batch index `batch`
(Python's `batch + 1` is the 1-based epoch number). -/
def mkFrame (cfg : Config) (batch : Nat) (s : EngineState) : Frame where
  version := s.state_version + 1
  cycle := s.current_cycle
  epoch := batch + 1
  total_epochs := cfg.unit_interaction_num
  score := s.best_score
  expression := s.best_expression

/-- Appending the progress frame, trimming the buffer to its last 2000
entries, and bumping `state_version` (`fitting.py:347-351`). -/
def appendFrame (cfg : Config) (batch : Nat) (s : EngineState) : EngineState :=
  let pf := s.progress_frames ++ [mkFrame cfg batch s]
  { s with
    progress_frames := if pf.length > 2000 then pf.drop (pf.length - 2000) else pf
    state_version := s.state_version + 1 }

/-- The body of a successful epoch (`fitting.py:316-357`): query update, then
`_update_api_calls`, then frame append (the progress callback mutates no
engine state). -/
def epochBody (cfg : Config) (q : QueryOutcome) (d : DiaryOutcome) (batch : Nat)
    (s : EngineState) : EngineState :=
  appendFrame cfg batch (update_api_calls cfg d (applyQuery q s))

/-- The inner epoch loop `for batch in range(total_epochs)`
(`fitting.py:308-374`), run with `fuel` iterations remaining and current
batch index `batch`.  A stop request breaks the loop; a `KeyboardInterrupt`
sets `should_stop` and breaks; an ordinary step exception is caught and the
loop continues with the next batch; after a successful epoch the loop breaks
when `best_score >= shutdown_score` (`fitting.py:360-362`). -/
def runEpochs (cfg : Config) (ev : Nat → EpochEvent) :
    Nat → Nat → EngineState → EngineState
  | 0, _, s => s
  | fuel + 1, batch, s =>
      let s1 := noteStop (ev batch).externStop s
      if s1.should_stop then s1
      else
        match (ev batch).step with
        | .interrupt => { s1 with should_stop := true }
        | .stepFail => runEpochs cfg ev fuel (batch + 1) s1
        | .ok q d =>
            let t := epochBody cfg q d batch s1
            if cfg.shutdown_score ≤ t.best_score then t
            else runEpochs cfg ev fuel (batch + 1) t

/-- Entering cycle `cycleIdx` (0-based): `self.current_cycle = cycle + 1`
(`fitting.py:287`). -/
def setCycle (cycleIdx : Nat) (s : EngineState) : EngineState :=
  { s with current_cycle := cycleIdx + 1 }

/-- The body of one cycle after its stop check (`fitting.py:287-382`):
`current_cycle` is set to the 1-based index, the filter-function and
repopulation calls go to the backend (no engine state), the epoch loop runs,
and afterwards the cycle's best score is appended to `score_history` iff it
is strictly positive (`fitting.py:376-378`); the append also runs when the
epoch loop was broken by a stop or by the threshold. -/
def cycleBody (cfg : Config) (ce : CycleEvent) (cycleIdx : Nat)
    (s : EngineState) : EngineState :=
  let t := runEpochs cfg ce.epochs cfg.unit_interaction_num 0 (setCycle cycleIdx s)
  if 0 < t.best_score then { t with score_history := t.score_history ++ [t.best_score] } else t

/-- The outer cycle loop `for cycle in range(cycle_num)`
(`fitting.py:282-386`): stop check at the top, cycle body, and a break when
`best_score >= shutdown_score` after the cycle (`fitting.py:385-386`). -/
def runCycles (cfg : Config) (cyc : Nat → CycleEvent) :
    Nat → Nat → EngineState → EngineState
  | 0, _, s => s
  | fuel + 1, cycleIdx, s =>
      let s1 := noteStop (cyc cycleIdx).externStop s
      if s1.should_stop then s1
      else
        let t := cycleBody cfg (cyc cycleIdx) cycleIdx s1
        if cfg.shutdown_score ≤ t.best_score then t
        else runCycles cfg cyc fuel (cycleIdx + 1) t

/-- The per-run resets at `fitting.py:266-272`.  Note that `best_score`,
`best_expression`, `state_version`, `progress_frames`, `total_api_calls` and
`final_best` are NOT reset there. -/
def resetState (cfg : Config) (s0 : EngineState) : EngineState :=
  { s0 with
    is_running := true
    should_stop := false
    current_cycle := 0
    total_cycles := cfg.cycle_num
    api_calls_log := ([] : List CallRecord)
    score_history := ([] : List ℚ) }

/-- The `finally` block at `fitting.py:402-411`: clear `is_running` and
record `final_best` from the current state — unconditionally, also when an
orchestration-level exception was caught at line 395. -/
def finishState (s : EngineState) : EngineState :=
  { s with
    is_running := false
    final_best := some
      { score := s.best_score
        expression := s.best_expression
        total_cycles := s.total_cycles
        total_api_calls := s.total_api_calls } }

/-- `FittingEngine.run_fitting` (`fitting.py:254-411`): reset, then — unless
fitter/searcher construction raised — the cycle loop, then the `finally`
block. -/
def run_fitting (cfg : Config) (init : InitOutcome) (s0 : EngineState) : EngineState :=
  match init with
  | .initFail => finishState (resetState cfg s0)
  | .ok cyc => finishState (runCycles cfg cyc cfg.cycle_num 0 (resetState cfg s0))

/-- `FittingEngine.get_progress_frames` (`fitting.py:521-533`). -/
def get_progress_frames (since_version : Option Nat) (s : EngineState) : List Frame :=
  match since_version with
  | none => s.progress_frames
  | some v => s.progress_frames.filter (fun f => v < f.version)

/-- `FittingEngine.get_state_version` (`fitting.py:515-519`). -/
def get_state_version (s : EngineState) : Nat :=
  s.state_version

/-- `FittingEngine.get_final_best` (`fitting.py:535-539`). -/
def get_final_best (s : EngineState) : Option FinalBest :=
  s.final_best

/-- `FittingEngine.stop_fitting` (`fitting.py:473-475`). -/
def stop_fitting (s : EngineState) : EngineState :=
  { s with should_stop := true }

/-! ### Field-preservation lemmas for the elementary operations -/

@[simp] theorem noteStop_false (s : EngineState) : noteStop false s = s := rfl

@[simp] theorem noteStop_should_stop (b : Bool) (s : EngineState) :
    (noteStop b s).should_stop = (s.should_stop || b) := by
  cases b <;> simp [noteStop]

@[simp] theorem noteStop_best_score (b : Bool) (s : EngineState) :
    (noteStop b s).best_score = s.best_score := by
  cases b <;> simp [noteStop]

@[simp] theorem noteStop_best_expression (b : Bool) (s : EngineState) :
    (noteStop b s).best_expression = s.best_expression := by
  cases b <;> simp [noteStop]

@[simp] theorem noteStop_current_cycle (b : Bool) (s : EngineState) :
    (noteStop b s).current_cycle = s.current_cycle := by
  cases b <;> simp [noteStop]

@[simp] theorem noteStop_score_history (b : Bool) (s : EngineState) :
    (noteStop b s).score_history = s.score_history := by
  cases b <;> simp [noteStop]

@[simp] theorem noteStop_state_version (b : Bool) (s : EngineState) :
    (noteStop b s).state_version = s.state_version := by
  cases b <;> simp [noteStop]

@[simp] theorem noteStop_progress_frames (b : Bool) (s : EngineState) :
    (noteStop b s).progress_frames = s.progress_frames := by
  cases b <;> simp [noteStop]

@[simp] theorem noteStop_api_calls_log (b : Bool) (s : EngineState) :
    (noteStop b s).api_calls_log = s.api_calls_log := by
  cases b <;> simp [noteStop]

@[simp] theorem noteStop_total_api_calls (b : Bool) (s : EngineState) :
    (noteStop b s).total_api_calls = s.total_api_calls := by
  cases b <;> simp [noteStop]

@[simp] theorem noteStop_final_best (b : Bool) (s : EngineState) :
    (noteStop b s).final_best = s.final_best := by
  cases b <;> simp [noteStop]

@[simp] theorem applyQuery_should_stop (q : QueryOutcome) (s : EngineState) :
    (applyQuery q s).should_stop = s.should_stop := by
  cases q <;> rfl

@[simp] theorem applyQuery_current_cycle (q : QueryOutcome) (s : EngineState) :
    (applyQuery q s).current_cycle = s.current_cycle := by
  cases q <;> rfl

@[simp] theorem applyQuery_score_history (q : QueryOutcome) (s : EngineState) :
    (applyQuery q s).score_history = s.score_history := by
  cases q <;> rfl

@[simp] theorem applyQuery_state_version (q : QueryOutcome) (s : EngineState) :
    (applyQuery q s).state_version = s.state_version := by
  cases q <;> rfl

@[simp] theorem applyQuery_progress_frames (q : QueryOutcome) (s : EngineState) :
    (applyQuery q s).progress_frames = s.progress_frames := by
  cases q <;> rfl

@[simp] theorem applyQuery_api_calls_log (q : QueryOutcome) (s : EngineState) :
    (applyQuery q s).api_calls_log = s.api_calls_log := by
  cases q <;> rfl

@[simp] theorem applyQuery_total_api_calls (q : QueryOutcome) (s : EngineState) :
    (applyQuery q s).total_api_calls = s.total_api_calls := by
  cases q <;> rfl

@[simp] theorem applyQuery_final_best (q : QueryOutcome) (s : EngineState) :
    (applyQuery q s).final_best = s.final_best := by
  cases q <;> rfl

@[simp] theorem applyDiary_should_stop (cfg : Config) (d : DiaryOutcome) (s : EngineState) :
    (applyDiary cfg d s).should_stop = s.should_stop := by
  cases d <;> rfl

@[simp] theorem applyDiary_best_score (cfg : Config) (d : DiaryOutcome) (s : EngineState) :
    (applyDiary cfg d s).best_score = s.best_score := by
  cases d <;> rfl

@[simp] theorem applyDiary_best_expression (cfg : Config) (d : DiaryOutcome) (s : EngineState) :
    (applyDiary cfg d s).best_expression = s.best_expression := by
  cases d <;> rfl

@[simp] theorem applyDiary_current_cycle (cfg : Config) (d : DiaryOutcome) (s : EngineState) :
    (applyDiary cfg d s).current_cycle = s.current_cycle := by
  cases d <;> rfl

@[simp] theorem applyDiary_score_history (cfg : Config) (d : DiaryOutcome) (s : EngineState) :
    (applyDiary cfg d s).score_history = s.score_history := by
  cases d <;> rfl

@[simp] theorem applyDiary_state_version (cfg : Config) (d : DiaryOutcome) (s : EngineState) :
    (applyDiary cfg d s).state_version = s.state_version := by
  cases d <;> rfl

@[simp] theorem applyDiary_progress_frames (cfg : Config) (d : DiaryOutcome) (s : EngineState) :
    (applyDiary cfg d s).progress_frames = s.progress_frames := by
  cases d <;> rfl

@[simp] theorem applyDiary_api_calls_log (cfg : Config) (d : DiaryOutcome) (s : EngineState) :
    (applyDiary cfg d s).api_calls_log = s.api_calls_log := by
  cases d <;> rfl

@[simp] theorem applyDiary_final_best (cfg : Config) (d : DiaryOutcome) (s : EngineState) :
    (applyDiary cfg d s).final_best = s.final_best := by
  cases d <;> rfl

@[simp] theorem pushRecord_should_stop (cfg : Config) (s : EngineState) :
    (pushRecord cfg s).should_stop = s.should_stop := rfl

@[simp] theorem pushRecord_best_score (cfg : Config) (s : EngineState) :
    (pushRecord cfg s).best_score = s.best_score := rfl

@[simp] theorem pushRecord_best_expression (cfg : Config) (s : EngineState) :
    (pushRecord cfg s).best_expression = s.best_expression := rfl

@[simp] theorem pushRecord_current_cycle (cfg : Config) (s : EngineState) :
    (pushRecord cfg s).current_cycle = s.current_cycle := rfl

@[simp] theorem pushRecord_score_history (cfg : Config) (s : EngineState) :
    (pushRecord cfg s).score_history = s.score_history := rfl

@[simp] theorem pushRecord_state_version (cfg : Config) (s : EngineState) :
    (pushRecord cfg s).state_version = s.state_version := rfl

@[simp] theorem pushRecord_progress_frames (cfg : Config) (s : EngineState) :
    (pushRecord cfg s).progress_frames = s.progress_frames := rfl

@[simp] theorem pushRecord_total_api_calls (cfg : Config) (s : EngineState) :
    (pushRecord cfg s).total_api_calls = s.total_api_calls := rfl

@[simp] theorem pushRecord_final_best (cfg : Config) (s : EngineState) :
    (pushRecord cfg s).final_best = s.final_best := rfl

@[simp] theorem appendFrame_should_stop (cfg : Config) (batch : Nat) (s : EngineState) :
    (appendFrame cfg batch s).should_stop = s.should_stop := rfl

@[simp] theorem appendFrame_best_score (cfg : Config) (batch : Nat) (s : EngineState) :
    (appendFrame cfg batch s).best_score = s.best_score := rfl

@[simp] theorem appendFrame_best_expression (cfg : Config) (batch : Nat) (s : EngineState) :
    (appendFrame cfg batch s).best_expression = s.best_expression := rfl

@[simp] theorem appendFrame_current_cycle (cfg : Config) (batch : Nat) (s : EngineState) :
    (appendFrame cfg batch s).current_cycle = s.current_cycle := rfl

@[simp] theorem appendFrame_score_history (cfg : Config) (batch : Nat) (s : EngineState) :
    (appendFrame cfg batch s).score_history = s.score_history := rfl

@[simp] theorem appendFrame_api_calls_log (cfg : Config) (batch : Nat) (s : EngineState) :
    (appendFrame cfg batch s).api_calls_log = s.api_calls_log := rfl

@[simp] theorem appendFrame_total_api_calls (cfg : Config) (batch : Nat) (s : EngineState) :
    (appendFrame cfg batch s).total_api_calls = s.total_api_calls := rfl

@[simp] theorem appendFrame_final_best (cfg : Config) (batch : Nat) (s : EngineState) :
    (appendFrame cfg batch s).final_best = s.final_best := rfl

@[simp] theorem appendFrame_state_version (cfg : Config) (batch : Nat) (s : EngineState) :
    (appendFrame cfg batch s).state_version = s.state_version + 1 := rfl

@[simp] theorem setCycle_current_cycle (i : Nat) (s : EngineState) :
    (setCycle i s).current_cycle = i + 1 := rfl

@[simp] theorem setCycle_should_stop (i : Nat) (s : EngineState) :
    (setCycle i s).should_stop = s.should_stop := rfl

@[simp] theorem setCycle_best_score (i : Nat) (s : EngineState) :
    (setCycle i s).best_score = s.best_score := rfl

@[simp] theorem setCycle_best_expression (i : Nat) (s : EngineState) :
    (setCycle i s).best_expression = s.best_expression := rfl

@[simp] theorem setCycle_score_history (i : Nat) (s : EngineState) :
    (setCycle i s).score_history = s.score_history := rfl

@[simp] theorem setCycle_state_version (i : Nat) (s : EngineState) :
    (setCycle i s).state_version = s.state_version := rfl

@[simp] theorem setCycle_progress_frames (i : Nat) (s : EngineState) :
    (setCycle i s).progress_frames = s.progress_frames := rfl

@[simp] theorem setCycle_api_calls_log (i : Nat) (s : EngineState) :
    (setCycle i s).api_calls_log = s.api_calls_log := rfl

@[simp] theorem setCycle_total_api_calls (i : Nat) (s : EngineState) :
    (setCycle i s).total_api_calls = s.total_api_calls := rfl

@[simp] theorem setCycle_final_best (i : Nat) (s : EngineState) :
    (setCycle i s).final_best = s.final_best := rfl

@[simp] theorem resetState_should_stop (cfg : Config) (s : EngineState) :
    (resetState cfg s).should_stop = false := rfl

@[simp] theorem resetState_current_cycle (cfg : Config) (s : EngineState) :
    (resetState cfg s).current_cycle = 0 := rfl

@[simp] theorem resetState_total_cycles (cfg : Config) (s : EngineState) :
    (resetState cfg s).total_cycles = cfg.cycle_num := rfl

@[simp] theorem resetState_best_score (cfg : Config) (s : EngineState) :
    (resetState cfg s).best_score = s.best_score := rfl

@[simp] theorem resetState_best_expression (cfg : Config) (s : EngineState) :
    (resetState cfg s).best_expression = s.best_expression := rfl

@[simp] theorem resetState_score_history (cfg : Config) (s : EngineState) :
    (resetState cfg s).score_history = [] := rfl

@[simp] theorem resetState_api_calls_log (cfg : Config) (s : EngineState) :
    (resetState cfg s).api_calls_log = [] := rfl

@[simp] theorem resetState_state_version (cfg : Config) (s : EngineState) :
    (resetState cfg s).state_version = s.state_version := rfl

@[simp] theorem resetState_progress_frames (cfg : Config) (s : EngineState) :
    (resetState cfg s).progress_frames = s.progress_frames := rfl

@[simp] theorem resetState_total_api_calls (cfg : Config) (s : EngineState) :
    (resetState cfg s).total_api_calls = s.total_api_calls := rfl

@[simp] theorem finishState_is_running (s : EngineState) :
    (finishState s).is_running = false := rfl

@[simp] theorem finishState_best_score (s : EngineState) :
    (finishState s).best_score = s.best_score := rfl

@[simp] theorem finishState_best_expression (s : EngineState) :
    (finishState s).best_expression = s.best_expression := rfl

@[simp] theorem finishState_current_cycle (s : EngineState) :
    (finishState s).current_cycle = s.current_cycle := rfl

@[simp] theorem finishState_score_history (s : EngineState) :
    (finishState s).score_history = s.score_history := rfl

@[simp] theorem finishState_state_version (s : EngineState) :
    (finishState s).state_version = s.state_version := rfl

@[simp] theorem finishState_progress_frames (s : EngineState) :
    (finishState s).progress_frames = s.progress_frames := rfl

@[simp] theorem finishState_api_calls_log (s : EngineState) :
    (finishState s).api_calls_log = s.api_calls_log := rfl

@[simp] theorem finishState_total_api_calls (s : EngineState) :
    (finishState s).total_api_calls = s.total_api_calls := rfl

@[simp] theorem finishState_final_best (s : EngineState) :
    (finishState s).final_best = some
      { score := s.best_score
        expression := s.best_expression
        total_cycles := s.total_cycles
        total_api_calls := s.total_api_calls } := rfl

@[simp] theorem epochBody_should_stop (cfg : Config) (q : QueryOutcome) (d : DiaryOutcome)
    (batch : Nat) (s : EngineState) :
    (epochBody cfg q d batch s).should_stop = s.should_stop := by
  simp [epochBody, update_api_calls]

@[simp] theorem epochBody_current_cycle (cfg : Config) (q : QueryOutcome) (d : DiaryOutcome)
    (batch : Nat) (s : EngineState) :
    (epochBody cfg q d batch s).current_cycle = s.current_cycle := by
  simp [epochBody, update_api_calls]

@[simp] theorem epochBody_score_history (cfg : Config) (q : QueryOutcome) (d : DiaryOutcome)
    (batch : Nat) (s : EngineState) :
    (epochBody cfg q d batch s).score_history = s.score_history := by
  simp [epochBody, update_api_calls]

@[simp] theorem epochBody_final_best (cfg : Config) (q : QueryOutcome) (d : DiaryOutcome)
    (batch : Nat) (s : EngineState) :
    (epochBody cfg q d batch s).final_best = s.final_best := by
  simp [epochBody, update_api_calls]

@[simp] theorem epochBody_best_score (cfg : Config) (q : QueryOutcome) (d : DiaryOutcome)
    (batch : Nat) (s : EngineState) :
    (epochBody cfg q d batch s).best_score = (applyQuery q s).best_score := by
  simp [epochBody, update_api_calls]

@[simp] theorem epochBody_best_expression (cfg : Config) (q : QueryOutcome) (d : DiaryOutcome)
    (batch : Nat) (s : EngineState) :
    (epochBody cfg q d batch s).best_expression = (applyQuery q s).best_expression := by
  simp [epochBody, update_api_calls]

/-! ### Loop-level preservation lemmas -/

theorem runEpochs_score_history (cfg : Config) (ev : Nat → EpochEvent) :
    ∀ fuel batch s, (runEpochs cfg ev fuel batch s).score_history = s.score_history := by
  intro fuel
  induction fuel with
  | zero => intro batch s; rfl
  | succ n ih =>
    intro batch s
    simp only [runEpochs]
    split
    · simp
    · split
      · simp
      · rw [ih]; simp
      · split
        · simp
        · rw [ih]; simp

theorem runEpochs_current_cycle (cfg : Config) (ev : Nat → EpochEvent) :
    ∀ fuel batch s, (runEpochs cfg ev fuel batch s).current_cycle = s.current_cycle := by
  intro fuel
  induction fuel with
  | zero => intro batch s; rfl
  | succ n ih =>
    intro batch s
    simp only [runEpochs]
    split
    · simp
    · split
      · simp
      · rw [ih]; simp
      · split
        · simp
        · rw [ih]; simp

theorem runEpochs_final_best (cfg : Config) (ev : Nat → EpochEvent) :
    ∀ fuel batch s, (runEpochs cfg ev fuel batch s).final_best = s.final_best := by
  intro fuel
  induction fuel with
  | zero => intro batch s; rfl
  | succ n ih =>
    intro batch s
    simp only [runEpochs]
    split
    · simp
    · split
      · simp
      · rw [ih]; simp
      · split
        · simp
        · rw [ih]; simp

theorem cycleBody_final_best (cfg : Config) (ce : CycleEvent) (cycleIdx : Nat)
    (s : EngineState) : (cycleBody cfg ce cycleIdx s).final_best = s.final_best := by
  simp only [cycleBody]
  split
  · simp [runEpochs_final_best]
  · simp [runEpochs_final_best]

theorem runCycles_final_best (cfg : Config) (cyc : Nat → CycleEvent) :
    ∀ fuel cycleIdx s, (runCycles cfg cyc fuel cycleIdx s).final_best = s.final_best := by
  intro fuel
  induction fuel with
  | zero => intro cycleIdx s; rfl
  | succ n ih =>
    intro cycleIdx s
    simp only [runCycles]
    split
    · simp
    · split
      · rw [cycleBody_final_best]; simp
      · rw [ih, cycleBody_final_best]; simp

/-! ### The versioned-buffer invariant (progress frames) -/

/-- Dropping from the front of a consecutive range yields a consecutive
range. -/
theorem range_one_drop (a n k : Nat) :
    (List.range' a n).drop k = List.range' (a + k) (n - k) := by
  rcases le_or_lt k n with h | h
  · have happ : List.range' a k ++ List.range' (a + k) (n - k) = List.range' a n := by
      have hra := List.range'_append a k (n - k) 1
      rw [Nat.one_mul, Nat.sub_add_cancel h] at hra
      exact hra
    calc (List.range' a n).drop k
        = (List.range' a k ++ List.range' (a + k) (n - k)).drop k := by rw [happ]
      _ = (List.range' a k ++ List.range' (a + k) (n - k)).drop (List.range' a k).length := by
          rw [List.length_range']
      _ = List.range' (a + k) (n - k) := List.drop_left _ _
  · have h1 : n - k = 0 := Nat.sub_eq_zero_of_le (Nat.le_of_lt h)
    have h2 : (List.range' a n).length ≤ k := by
      rw [List.length_range']; exact Nat.le_of_lt h
    simp [h1, List.drop_eq_nil_of_le h2]

/-- The buffer invariant maintained by the engine: the versions stored in
`progress_frames` form the consecutive range ending exactly at
`state_version`, and there are at most `state_version` of them. -/
def framesInv (s : EngineState) : Prop :=
  s.progress_frames.map Frame.version =
    List.range' (s.state_version + 1 - s.progress_frames.length) s.progress_frames.length
  ∧ s.progress_frames.length ≤ s.state_version

instance (s : EngineState) : Decidable (framesInv s) := by
  unfold framesInv; infer_instance

theorem framesInv_congr {s t : EngineState} (hp : t.progress_frames = s.progress_frames)
    (hv : t.state_version = s.state_version) (h : framesInv s) : framesInv t := by
  unfold framesInv at h ⊢
  rw [hp, hv]
  exact h

theorem framesInv_initialState : framesInv initialState := by
  constructor
  · rfl
  · exact Nat.le_refl 0

theorem appendFrame_framesInv (cfg : Config) (batch : Nat) (s : EngineState)
    (h : framesInv s) : framesInv (appendFrame cfg batch s) := by
  obtain ⟨h1, h2⟩ := h
  set n := s.progress_frames.length with hn
  set v := s.state_version with hv
  have hmap0 : (s.progress_frames ++ [mkFrame cfg batch s]).map Frame.version =
      List.range' (v + 1 - n) (n + 1) := by
    rw [List.map_append, h1, List.range'_concat]
    have hst : (v + 1 - n) + 1 * n = v + 1 := by omega
    rw [hst]
    rfl
  have hlen0 : (s.progress_frames ++ [mkFrame cfg batch s]).length = n + 1 := by
    simp [hn]
  constructor
  · show (appendFrame cfg batch s).progress_frames.map Frame.version =
      List.range' ((v + 1) + 1 - (appendFrame cfg batch s).progress_frames.length)
        (appendFrame cfg batch s).progress_frames.length
    simp only [appendFrame]
    split
    · rename_i hgt
      rw [hlen0] at hgt
      rw [List.map_drop, hmap0, range_one_drop, List.length_drop, hlen0]
      have heq : (v + 1 - n) + ((n + 1) - 2000) = (v + 1) + 1 - ((n + 1) - ((n + 1) - 2000)) := by
        omega
      rw [heq]
    · rename_i hle
      rw [hlen0] at hle
      rw [hlen0, hmap0]
      have heq : v + 1 - n = (v + 1) + 1 - (n + 1) := by omega
      rw [heq]
  · show (appendFrame cfg batch s).progress_frames.length ≤ v + 1
    simp only [appendFrame]
    split
    · rename_i hgt
      rw [hlen0] at hgt
      rw [List.length_drop, hlen0]
      omega
    · rw [hlen0]
      omega

theorem applyQuery_framesInv (q : QueryOutcome) (s : EngineState)
    (h : framesInv s) : framesInv (applyQuery q s) :=
  framesInv_congr (by simp) (by simp) h

theorem update_api_calls_framesInv (cfg : Config) (d : DiaryOutcome) (s : EngineState)
    (h : framesInv s) : framesInv (update_api_calls cfg d s) :=
  framesInv_congr (by simp [update_api_calls]) (by simp [update_api_calls]) h

theorem epochBody_framesInv (cfg : Config) (q : QueryOutcome) (d : DiaryOutcome)
    (batch : Nat) (s : EngineState) (h : framesInv s) :
    framesInv (epochBody cfg q d batch s) :=
  appendFrame_framesInv cfg batch _
    (update_api_calls_framesInv cfg d _ (applyQuery_framesInv q _ h))

theorem noteStop_framesInv (b : Bool) (s : EngineState) (h : framesInv s) :
    framesInv (noteStop b s) :=
  framesInv_congr (by simp) (by simp) h

theorem runEpochs_framesInv (cfg : Config) (ev : Nat → EpochEvent) :
    ∀ fuel batch s, framesInv s → framesInv (runEpochs cfg ev fuel batch s) := by
  intro fuel
  induction fuel with
  | zero => intro batch s h; exact h
  | succ n ih =>
    intro batch s h
    simp only [runEpochs]
    split
    · exact noteStop_framesInv _ _ h
    · split
      · exact framesInv_congr rfl rfl (noteStop_framesInv _ _ h)
      · exact ih _ _ (noteStop_framesInv _ _ h)
      · split
        · exact epochBody_framesInv _ _ _ _ _ (noteStop_framesInv _ _ h)
        · exact ih _ _ (epochBody_framesInv _ _ _ _ _ (noteStop_framesInv _ _ h))

theorem cycleBody_framesInv (cfg : Config) (ce : CycleEvent) (cycleIdx : Nat)
    (s : EngineState) (h : framesInv s) : framesInv (cycleBody cfg ce cycleIdx s) := by
  have hset : framesInv (setCycle cycleIdx s) :=
    framesInv_congr rfl rfl h
  have hrun := runEpochs_framesInv cfg ce.epochs cfg.unit_interaction_num 0 _ hset
  simp only [cycleBody]
  split
  · exact framesInv_congr rfl rfl hrun
  · exact hrun

theorem runCycles_framesInv (cfg : Config) (cyc : Nat → CycleEvent) :
    ∀ fuel cycleIdx s, framesInv s → framesInv (runCycles cfg cyc fuel cycleIdx s) := by
  intro fuel
  induction fuel with
  | zero => intro cycleIdx s h; exact h
  | succ n ih =>
    intro cycleIdx s h
    simp only [runCycles]
    split
    · exact noteStop_framesInv _ _ h
    · split
      · exact cycleBody_framesInv _ _ _ _ (noteStop_framesInv _ _ h)
      · exact ih _ _ (cycleBody_framesInv _ _ _ _ (noteStop_framesInv _ _ h))

theorem run_fitting_framesInv (cfg : Config) (init : InitOutcome) (s0 : EngineState)
    (h : framesInv s0) : framesInv (run_fitting cfg init s0) := by
  have hreset : framesInv (resetState cfg s0) := framesInv_congr rfl rfl h
  cases init with
  | initFail => exact framesInv_congr rfl rfl hreset
  | ok cyc =>
    exact framesInv_congr rfl rfl
      (runCycles_framesInv cfg cyc cfg.cycle_num 0 _ hreset)

/-! ### Claim C4 -/

/-- C4: within every run (any configuration, any backend behaviour), the
version fields of the snapshots held in the progress buffer are exactly the
consecutive range ending at the internal `state_version` counter — so they
are strictly increasing, grow by exactly one per appended snapshot, contain
no duplicates, and the sequence returned by `get_progress_frames none` has
no gaps relative to `state_version` (modulo eviction from the front). -/
theorem C4_progress_versions_consecutive (cfg : Config) (init : InitOutcome) :
    (get_progress_frames none (run_fitting cfg init initialState)).map Frame.version =
      List.range'
        ((run_fitting cfg init initialState).state_version + 1 -
          (run_fitting cfg init initialState).progress_frames.length)
        (run_fitting cfg init initialState).progress_frames.length
    ∧ (run_fitting cfg init initialState).progress_frames.length ≤
        (run_fitting cfg init initialState).state_version
    ∧ List.Pairwise (· < ·)
        ((get_progress_frames none (run_fitting cfg init initialState)).map Frame.version)
    ∧ ((get_progress_frames none (run_fitting cfg init initialState)).map Frame.version).Nodup
    ∧ (get_progress_frames none (run_fitting cfg init initialState) ≠ [] →
        ((get_progress_frames none (run_fitting cfg init initialState)).map
            Frame.version).getLast? =
          some (run_fitting cfg init initialState).state_version) := by
  set s := run_fitting cfg init initialState with hs
  have hinv : framesInv s := run_fitting_framesInv cfg init initialState framesInv_initialState
  have hfr : get_progress_frames none s = s.progress_frames := rfl
  obtain ⟨h1, h2⟩ := hinv
  refine ⟨?_, h2, ?_, ?_, ?_⟩
  · rw [hfr]; exact h1
  · rw [hfr, h1]; exact List.pairwise_lt_range' _ _
  · rw [hfr, h1]; exact List.nodup_range' _ _
  · intro hne
    rw [hfr] at hne
    have hpos : 0 < s.progress_frames.length := List.length_pos.mpr hne
    have hn1 : s.progress_frames.length = (s.progress_frames.length - 1) + 1 := by omega
    rw [hfr, h1, hn1, List.range'_concat, List.getLast?_concat]
    have heq : (s.state_version + 1 - ((s.progress_frames.length - 1) + 1)) + 1 *
        (s.progress_frames.length - 1) = s.state_version := by omega
    rw [heq]

/-- Concrete run used to instantiate C4's conditional conjunct. -/
def cfgW4 : Config := ⟨1, 1, 1, 100, ["m"]⟩

/-- Backend oracle for the C4 witness run: every epoch succeeds. -/
def cycW4 : Nat → CycleEvent :=
  fun _ => ⟨false, fun _ => ⟨false, .ok (.success "e" 5) .missing⟩⟩

/-- Witness for C4: on a concrete one-epoch run the buffer is non-empty and
its last version equals `state_version`. -/
theorem C4_progress_versions_consecutive_witness :
    ((get_progress_frames none (run_fitting cfgW4 (.ok cycW4) initialState)).map
        Frame.version).getLast? =
      some (run_fitting cfgW4 (.ok cycW4) initialState).state_version :=
  (C4_progress_versions_consecutive cfgW4 (.ok cycW4)).2.2.2.2 (by decide)

/-! ### Claim C6 -/

theorem cycleBody_score_history (cfg : Config) (ce : CycleEvent) (i : Nat) (s : EngineState) :
    (cycleBody cfg ce i s).score_history =
      s.score_history ++
        (if 0 < (runEpochs cfg ce.epochs cfg.unit_interaction_num 0 (setCycle i s)).best_score
          then [(runEpochs cfg ce.epochs cfg.unit_interaction_num 0 (setCycle i s)).best_score]
          else []) := by
  have hhist : (runEpochs cfg ce.epochs cfg.unit_interaction_num 0
      (setCycle i s)).score_history = s.score_history := by
    rw [runEpochs_score_history]; simp
  simp only [cycleBody]
  split
  · simp [hhist]
  · simp [hhist]

theorem cycleBody_current_cycle (cfg : Config) (ce : CycleEvent) (i : Nat) (s : EngineState) :
    (cycleBody cfg ce i s).current_cycle = i + 1 := by
  have hcur : (runEpochs cfg ce.epochs cfg.unit_interaction_num 0
      (setCycle i s)).current_cycle = i + 1 := by
    rw [runEpochs_current_cycle]; simp
  simp only [cycleBody]
  split
  · simp [hcur]
  · exact hcur

theorem cycleBody_history_extend (cfg : Config) (ce : CycleEvent) (i : Nat) (s : EngineState) :
    ∃ u, (cycleBody cfg ce i s).score_history = s.score_history ++ u := by
  rw [cycleBody_score_history]
  exact ⟨_, rfl⟩

theorem runCycles_history_extend (cfg : Config) (cyc : Nat → CycleEvent) :
    ∀ fuel i s, ∃ u, (runCycles cfg cyc fuel i s).score_history = s.score_history ++ u := by
  intro fuel
  induction fuel with
  | zero => intro i s; exact ⟨[], by simp [runCycles]⟩
  | succ n ih =>
    intro i s
    simp only [runCycles]
    split
    · exact ⟨[], by simp⟩
    · split
      · obtain ⟨u, hu⟩ := cycleBody_history_extend cfg (cyc i) i (noteStop (cyc i).externStop s)
        rw [noteStop_score_history] at hu
        exact ⟨u, hu⟩
      · obtain ⟨u1, h1⟩ := cycleBody_history_extend cfg (cyc i) i (noteStop (cyc i).externStop s)
        rw [noteStop_score_history] at h1
        obtain ⟨u2, h2⟩ := ih (i + 1) (cycleBody cfg (cyc i) i (noteStop (cyc i).externStop s))
        exact ⟨u1 ++ u2, by rw [h2, h1, List.append_assoc]⟩

theorem runCycles_len_le (cfg : Config) (cyc : Nat → CycleEvent) :
    ∀ fuel i s, s.score_history.length ≤ s.current_cycle → s.current_cycle ≤ i →
      (runCycles cfg cyc fuel i s).score_history.length ≤
        (runCycles cfg cyc fuel i s).current_cycle := by
  intro fuel
  induction fuel with
  | zero => intro i s h1 h2; exact h1
  | succ n ih =>
    intro i s h1 h2
    simp only [runCycles]
    split
    · simpa using h1
    · have hb_hist := cycleBody_score_history cfg (cyc i) i (noteStop (cyc i).externStop s)
      have hb_cur := cycleBody_current_cycle cfg (cyc i) i (noteStop (cyc i).externStop s)
      have hite : (if 0 < (runEpochs cfg (cyc i).epochs cfg.unit_interaction_num 0
          (setCycle i (noteStop (cyc i).externStop s))).best_score
          then [(runEpochs cfg (cyc i).epochs cfg.unit_interaction_num 0
          (setCycle i (noteStop (cyc i).externStop s))).best_score]
          else ([] : List ℚ)).length ≤ 1 := by
        split
        · simp
        · simp
      have hlen : (cycleBody cfg (cyc i) i (noteStop (cyc i).externStop s)).score_history.length
          ≤ i + 1 := by
        rw [hb_hist, List.length_append, noteStop_score_history]
        omega
      split
      · rw [hb_cur]; exact hlen
      · exact ih (i + 1) _ (by rw [hb_cur]; exact hlen) (by rw [hb_cur])

/-- C6: (1) after each cycle's epoch loop ends, the cycle's best score is
appended to `score_history` iff it is strictly positive (expressed as an
exact equation on the history); (2) across the cycle loop the history only
grows by appending at the end — it is never shortened or reordered; (3) in
every run `score_history.length ≤ current_cycle`. -/
theorem C6_score_history_iff_positive :
    (∀ (cfg : Config) (ce : CycleEvent) (i : Nat) (s : EngineState),
      (cycleBody cfg ce i s).score_history =
        s.score_history ++
          (if 0 < (runEpochs cfg ce.epochs cfg.unit_interaction_num 0
                (setCycle i s)).best_score
            then [(runEpochs cfg ce.epochs cfg.unit_interaction_num 0
                (setCycle i s)).best_score]
            else []))
    ∧ (∀ (cfg : Config) (cyc : Nat → CycleEvent) (fuel i : Nat) (s : EngineState),
        ∃ u, (runCycles cfg cyc fuel i s).score_history = s.score_history ++ u)
    ∧ (∀ (cfg : Config) (init : InitOutcome),
        (run_fitting cfg init initialState).score_history.length ≤
          (run_fitting cfg init initialState).current_cycle) := by
  refine ⟨cycleBody_score_history, runCycles_history_extend, ?_⟩
  intro cfg init
  cases init with
  | initFail => simp [run_fitting]
  | ok cyc =>
    have h := runCycles_len_le cfg cyc cfg.cycle_num 0 (resetState cfg initialState)
      (by simp) (by simp)
    simpa [run_fitting] using h

/-! ### Claim C7 -/

/-- A backend oracle that never requests a stop and never raises
`KeyboardInterrupt`: the only exits left to the loops are exhaustion and the
`shutdown_score` threshold. -/
def noStopEvents (cyc : Nat → CycleEvent) : Prop :=
  ∀ i, (cyc i).externStop = false ∧
    ∀ b, ((cyc i).epochs b).externStop = false ∧ ((cyc i).epochs b).step ≠ .interrupt

theorem runEpochs_should_stop_false (cfg : Config) (ev : Nat → EpochEvent)
    (hev : ∀ b, (ev b).externStop = false ∧ (ev b).step ≠ .interrupt) :
    ∀ fuel batch s, s.should_stop = false →
      (runEpochs cfg ev fuel batch s).should_stop = false := by
  intro fuel
  induction fuel with
  | zero => intro batch s hss; exact hss
  | succ n ih =>
    intro batch s hss
    simp only [runEpochs, (hev batch).1, noteStop_false]
    rw [if_neg (by simp [hss])]
    split
    · rename_i heq
      exact absurd heq (hev batch).2
    · exact ih _ _ hss
    · split
      · rename_i heq h
        simp [hss]
      · rename_i heq h
        exact ih _ _ (by simp [hss])

theorem cycleBody_should_stop_false (cfg : Config) (ce : CycleEvent) (i : Nat)
    (s : EngineState)
    (hev : ∀ b, (ce.epochs b).externStop = false ∧ (ce.epochs b).step ≠ .interrupt)
    (hss : s.should_stop = false) : (cycleBody cfg ce i s).should_stop = false := by
  have h := runEpochs_should_stop_false cfg ce.epochs hev cfg.unit_interaction_num 0
    (setCycle i s) (by simp [hss])
  simp only [cycleBody]
  split
  · simpa using h
  · exact h

theorem runCycles_completes (cfg : Config) (cyc : Nat → CycleEvent)
    (hns : noStopEvents cyc) :
    ∀ fuel i s, s.should_stop = false → s.current_cycle = i →
      (runCycles cfg cyc fuel i s).best_score < cfg.shutdown_score →
      (runCycles cfg cyc fuel i s).current_cycle = i + fuel := by
  intro fuel
  induction fuel with
  | zero => intro i s hss hcur hlt; simpa [runCycles] using hcur
  | succ n ih =>
    intro i s hss hcur hlt
    simp only [runCycles, (hns i).1, noteStop_false] at hlt ⊢
    rw [if_neg (by simp [hss])] at hlt ⊢
    by_cases hth : cfg.shutdown_score ≤ (cycleBody cfg (cyc i) i s).best_score
    · rw [if_pos hth] at hlt
      exact absurd (lt_of_le_of_lt hth hlt) (lt_irrefl _)
    · rw [if_neg hth] at hlt ⊢
      have := ih (i + 1) (cycleBody cfg (cyc i) i s)
        (cycleBody_should_stop_false cfg (cyc i) i s (hns i).2 hss)
        (cycleBody_current_cycle cfg (cyc i) i s) hlt
      omega

/-- C7: (1) if after a successful epoch's update `best_score` has reached
`shutdown_score`, the epoch loop stops there — the remaining epochs of the
cycle are never executed; (2) if after a cycle's body `best_score` has
reached `shutdown_score`, the cycle loop stops there — the remaining cycles
are never executed; (3) given a backend oracle that never stops the run,
a run whose final score stays below the threshold runs all `cycle_num`
configured cycles: the threshold is the sole non-exhaustion success exit. -/
theorem C7_threshold_sole_success_exit :
    (∀ (cfg : Config) (ev : Nat → EpochEvent) (fuel batch : Nat) (s : EngineState)
        (q : QueryOutcome) (d : DiaryOutcome),
      s.should_stop = false → (ev batch).externStop = false → (ev batch).step = .ok q d →
      cfg.shutdown_score ≤ (epochBody cfg q d batch s).best_score →
      runEpochs cfg ev (fuel + 1) batch s = epochBody cfg q d batch s)
    ∧ (∀ (cfg : Config) (cyc : Nat → CycleEvent) (fuel idx : Nat) (s : EngineState),
        s.should_stop = false → (cyc idx).externStop = false →
        cfg.shutdown_score ≤ (cycleBody cfg (cyc idx) idx s).best_score →
        runCycles cfg cyc (fuel + 1) idx s = cycleBody cfg (cyc idx) idx s)
    ∧ (∀ (cfg : Config) (cyc : Nat → CycleEvent), noStopEvents cyc →
        (run_fitting cfg (.ok cyc) initialState).best_score < cfg.shutdown_score →
        (run_fitting cfg (.ok cyc) initialState).current_cycle = cfg.cycle_num) := by
  refine ⟨?_, ?_, ?_⟩
  · intro cfg ev fuel batch s q d hss hes hstep hth
    simp only [runEpochs, hes, noteStop_false, hstep]
    rw [if_neg (by simp [hss])]
    rw [if_pos hth]
  · intro cfg cyc fuel idx s hss hes hth
    simp only [runCycles, hes, noteStop_false]
    rw [if_neg (by simp [hss])]
    rw [if_pos hth]
  · intro cfg cyc hns hlt
    have hlt' : (runCycles cfg cyc cfg.cycle_num 0
        (resetState cfg initialState)).best_score < cfg.shutdown_score := by
      simpa [run_fitting] using hlt
    have hrc := runCycles_completes cfg cyc hns cfg.cycle_num 0
      (resetState cfg initialState) rfl rfl hlt'
    simpa [run_fitting] using hrc

/-- Threshold-reaching configuration and oracle for the C7 witness. -/
def cfgW7 : Config := ⟨1, 1, 1, 1, ["m"]⟩

/-- Epoch oracle for the C7 witness: one successful epoch with score 5. -/
def evW7 : Nat → EpochEvent := fun _ => ⟨false, .ok (.success "e" 5) .missing⟩

/-- Cycle oracle for the C7 witness: successful epochs. -/
def cycW7 : Nat → CycleEvent := fun _ => ⟨false, evW7⟩

/-- Cycle oracle for the C7 witness in which every step fails, so the score
stays 0 and the run exhausts its cycles. -/
def cycW7f : Nat → CycleEvent := fun _ => ⟨false, fun _ => ⟨false, .stepFail⟩⟩

/-- Witness for C7 on concrete runs: the loops break exactly at the
threshold, and a below-threshold no-stop run exhausts all cycles. -/
theorem C7_threshold_sole_success_exit_witness :
    runEpochs cfgW7 evW7 1 0 initialState =
      epochBody cfgW7 (.success "e" 5) .missing 0 initialState
    ∧ runCycles cfgW7 cycW7 1 0 initialState = cycleBody cfgW7 (cycW7 0) 0 initialState
    ∧ (run_fitting cfgW7 (.ok cycW7f) initialState).current_cycle = cfgW7.cycle_num :=
  ⟨C7_threshold_sole_success_exit.1 cfgW7 evW7 0 0 initialState (.success "e" 5) .missing
      rfl rfl rfl (by decide),
   C7_threshold_sole_success_exit.2.1 cfgW7 cycW7 0 0 initialState rfl rfl (by decide),
   C7_threshold_sole_success_exit.2.2 cfgW7 cycW7f
      (fun i => ⟨rfl, fun b => ⟨rfl, by simp [cycW7f]⟩⟩) (by decide)⟩

/-! ### A generic invariant on the audit log -/

theorem epochBody_api_calls_log (cfg : Config) (q : QueryOutcome) (d : DiaryOutcome)
    (batch : Nat) (s : EngineState) :
    (epochBody cfg q d batch s).api_calls_log =
      (pushRecord cfg (applyDiary cfg d (applyQuery q s))).api_calls_log := by
  simp [epochBody, update_api_calls]

theorem runEpochs_log_invariant (cfg : Config) (ev : Nat → EpochEvent)
    (P : List CallRecord → Prop)
    (hpush : ∀ t : EngineState, P t.api_calls_log → P (pushRecord cfg t).api_calls_log) :
    ∀ fuel batch s, P s.api_calls_log → P (runEpochs cfg ev fuel batch s).api_calls_log := by
  intro fuel
  induction fuel with
  | zero => intro batch s h; exact h
  | succ n ih =>
    intro batch s h
    have hbody : ∀ q d b, P (epochBody cfg q d b (noteStop (ev batch).externStop s)).api_calls_log := by
      intro q d b
      rw [epochBody_api_calls_log]
      apply hpush
      simpa using h
    simp only [runEpochs]
    split
    · simpa using h
    · split
      · simpa using h
      · exact ih _ _ (by simpa using h)
      · split
        · apply hbody
        · exact ih _ _ (hbody _ _ _)

theorem cycleBody_log_invariant (cfg : Config) (ce : CycleEvent) (i : Nat) (s : EngineState)
    (P : List CallRecord → Prop)
    (hpush : ∀ t : EngineState, P t.api_calls_log → P (pushRecord cfg t).api_calls_log)
    (h : P s.api_calls_log) : P (cycleBody cfg ce i s).api_calls_log := by
  have hrun := runEpochs_log_invariant cfg ce.epochs P hpush cfg.unit_interaction_num 0
    (setCycle i s) (by simpa using h)
  simp only [cycleBody]
  split
  · simpa using hrun
  · exact hrun

theorem run_fitting_log_invariant (cfg : Config) (init : InitOutcome) (s0 : EngineState)
    (P : List CallRecord → Prop)
    (hpush : ∀ t : EngineState, P t.api_calls_log → P (pushRecord cfg t).api_calls_log)
    (hnil : P []) : P (run_fitting cfg init s0).api_calls_log := by
  have hcyc : ∀ (cyc : Nat → CycleEvent) fuel i s, P s.api_calls_log →
      P (runCycles cfg cyc fuel i s).api_calls_log := by
    intro cyc fuel
    induction fuel with
    | zero => intro i s h; exact h
    | succ n ih =>
      intro i s h
      simp only [runCycles]
      split
      · simpa using h
      · split
        · exact cycleBody_log_invariant cfg _ _ _ P hpush (by simpa using h)
        · exact ih _ _ (cycleBody_log_invariant cfg _ _ _ P hpush (by simpa using h))
  cases init with
  | initFail => simpa [run_fitting] using hnil
  | ok cyc =>
    simpa [run_fitting] using hcyc cyc cfg.cycle_num 0 (resetState cfg s0) (by simpa using hnil)

/-! ### Claim C1 -/

/-- Run in which the first epoch's backend step raises and the second epoch
succeeds with score 5 (threshold 100 is never reached). -/
def cfgC1 : Config := ⟨1, 2, 1, 100, ["m"]⟩

/-- Backend oracle for the C1 counterexample run. -/
def cycC1 : Nat → CycleEvent :=
  fun _ => ⟨false, fun b =>
    if b = 0 then ⟨false, .stepFail⟩ else ⟨false, .ok (.success "e" 5) .missing⟩⟩

/-- C1 counterexample: in a two-epoch run whose first epoch's step raises,
the run continues (the second epoch runs and the cycle completes), but the
failing epoch gets NO audit record (the log holds exactly one record, with
status `success`, from the successful epoch — none with status `unknown`)
and NO progress snapshot (exactly one frame, `state_version` is 1, not 2).
The claim's "exactly one Audit Record with status `unknown` plus one
Progress Snapshot are appended for that epoch" is therefore false here. -/
theorem C1_counterexample :
    (run_fitting cfgC1 (.ok cycC1) initialState).api_calls_log.map CallRecord.status =
      ["success"]
    ∧ (run_fitting cfgC1 (.ok cycC1) initialState).progress_frames.length = 1
    ∧ (run_fitting cfgC1 (.ok cycC1) initialState).state_version = 1
    ∧ (run_fitting cfgC1 (.ok cycC1) initialState).current_cycle = 1 := by
  decide

/-- C1 amended: when the backend step raises in an epoch, the run neither
aborts nor terminates early — the loop continues with the next epoch with
the state completely unchanged — but, contrary to the claim, no audit record
and no progress snapshot are appended for that epoch; indeed no record with
status `unknown` is ever produced: every audit record of any run has status
`success` or `no_expression`. -/
theorem C1_step_failure_skips_records :
    (∀ (cfg : Config) (ev : Nat → EpochEvent) (fuel batch : Nat) (s : EngineState),
      s.should_stop = false → (ev batch).externStop = false →
      (ev batch).step = .stepFail →
      runEpochs cfg ev (fuel + 1) batch s = runEpochs cfg ev fuel (batch + 1) s)
    ∧ (∀ (cfg : Config) (init : InitOutcome) (r : CallRecord),
        r ∈ (run_fitting cfg init initialState).api_calls_log →
        r.status = "success" ∨ r.status = "no_expression") := by
  constructor
  · intro cfg ev fuel batch s hss hes hstep
    simp only [runEpochs, hes, noteStop_false, hstep]
    rw [if_neg (by simp [hss])]
  · intro cfg init r hr
    refine run_fitting_log_invariant cfg init initialState
      (fun l => ∀ x ∈ l, x.status = "success" ∨ x.status = "no_expression") ?_ ?_ r hr
    · intro t ht x hx
      simp only [pushRecord] at hx
      have hx2 : x ∈ t.api_calls_log ++ [mkCallRecord cfg t] := by
        revert hx
        split
        · intro hx; exact List.drop_subset _ _ hx
        · intro hx; exact hx
      rcases List.mem_append.mp hx2 with hold | hnew
      · exact ht x hold
      · have hx3 : x = mkCallRecord cfg t := List.mem_singleton.mp hnew
        subst hx3
        simp only [mkCallRecord]
        split
        · right; rfl
        · left; rfl
    · intro x hx
      exact absurd hx (List.not_mem_nil x)

/-- Epoch oracle whose steps all raise, for the C1 witness. -/
def evW1 : Nat → EpochEvent := fun _ => ⟨false, .stepFail⟩

/-- One-epoch all-successful configuration for the C1 witness. -/
def cfgW1 : Config := ⟨1, 1, 1, 100, ["m"]⟩

/-- Backend oracle for the C1 witness: one successful epoch. -/
def cycW1 : Nat → CycleEvent :=
  fun _ => ⟨false, fun _ => ⟨false, .ok (.success "e" 5) .missing⟩⟩

/-- The single audit record produced by the C1 witness run. -/
def recW1 : CallRecord := ⟨1, "m", "e", 5, 0, "success"⟩

/-- Witness for C1: the skip equation at a concrete failing epoch, and the
status disjunction for a concrete record of a concrete run. -/
theorem C1_step_failure_skips_records_witness :
    runEpochs cfgC1 evW1 1 0 initialState = runEpochs cfgC1 evW1 0 1 initialState
    ∧ (recW1.status = "success" ∨ recW1.status = "no_expression") :=
  ⟨C1_step_failure_skips_records.1 cfgC1 evW1 0 0 initialState rfl rfl rfl,
   C1_step_failure_skips_records.2 cfgW1 (.ok cycW1) recW1 (by decide)⟩

/-! ### Claim C2 -/

/-- Run whose first epoch succeeds with score 5 and whose second epoch's
best-expression query raises. -/
def cfgC2 : Config := ⟨1, 2, 1, 100, ["m"]⟩

/-- Backend oracle for the C2 counterexample run. -/
def cycC2 : Nat → CycleEvent :=
  fun _ => ⟨false, fun b =>
    if b = 0 then ⟨false, .ok (.success "e" 5) .missing⟩
    else ⟨false, .ok .exprFail .missing⟩⟩

/-- C2 counterexample: after the second epoch's successful step the
best-expression query raises, yet the engine keeps the previous best values
(score 5, expression `e`) instead of setting score 0 and the empty
expression as the claim states. -/
theorem C2_counterexample :
    (run_fitting cfgC2 (.ok cycC2) initialState).best_score = 5
    ∧ (run_fitting cfgC2 (.ok cycC2) initialState).best_expression = "e"
    ∧ ¬((run_fitting cfgC2 (.ok cycC2) initialState).best_score = 0
        ∧ (run_fitting cfgC2 (.ok cycC2) initialState).best_expression = "") := by
  decide

/-- C2 amended: after a successful backend step, if the best-expression
query raises the engine retains the previous `best_score` and
`best_expression` unchanged (they are 0 and the empty string only when no
epoch has succeeded yet, as those are the initial values); if only the
best-score query raises, the freshly queried expression is kept and the
previous score is retained; in either case the error is absorbed and the
epoch loop simply continues with the next epoch. -/
theorem C2_query_failure_retains_previous_best :
    (∀ (cfg : Config) (d : DiaryOutcome) (batch : Nat) (s : EngineState),
      (epochBody cfg .exprFail d batch s).best_score = s.best_score
      ∧ (epochBody cfg .exprFail d batch s).best_expression = s.best_expression)
    ∧ (∀ (cfg : Config) (d : DiaryOutcome) (batch : Nat) (s : EngineState) (e : String),
        (epochBody cfg (.scoreFail e) d batch s).best_score = s.best_score
        ∧ (epochBody cfg (.scoreFail e) d batch s).best_expression = e)
    ∧ (∀ (cfg : Config) (ev : Nat → EpochEvent) (fuel batch : Nat) (s : EngineState)
          (q : QueryOutcome) (d : DiaryOutcome),
        s.should_stop = false → (ev batch).externStop = false →
        (ev batch).step = .ok q d →
        (epochBody cfg q d batch s).best_score < cfg.shutdown_score →
        runEpochs cfg ev (fuel + 1) batch s =
          runEpochs cfg ev fuel (batch + 1) (epochBody cfg q d batch s)) := by
  refine ⟨?_, ?_, ?_⟩
  · intro cfg d batch s
    constructor
    · simp [applyQuery]
    · simp [applyQuery]
  · intro cfg d batch s e
    constructor
    · simp [applyQuery]
    · simp [applyQuery]
  · intro cfg ev fuel batch s q d hss hes hstep hlt
    simp only [runEpochs, hes, noteStop_false, hstep]
    rw [if_neg (by simp [hss])]
    rw [if_neg (not_le.mpr hlt)]

/-- Epoch oracle for the C2 witness: every query raises. -/
def evW2 : Nat → EpochEvent := fun _ => ⟨false, .ok .exprFail .missing⟩

/-- Witness for C2 at concrete inputs: retained fields and the continuation
equation on a concrete epoch whose query fails below the threshold. -/
theorem C2_query_failure_retains_previous_best_witness :
    (epochBody cfgC2 .exprFail .missing 0 initialState).best_score = initialState.best_score
    ∧ (epochBody cfgC2 (.scoreFail "f") .missing 0 initialState).best_expression = "f"
    ∧ runEpochs cfgC2 evW2 1 0 initialState =
        runEpochs cfgC2 evW2 0 1 (epochBody cfgC2 .exprFail .missing 0 initialState) :=
  ⟨(C2_query_failure_retains_previous_best.1 cfgC2 .missing 0 initialState).1,
   (C2_query_failure_retains_previous_best.2.1 cfgC2 .missing 0 initialState "f").2,
   C2_query_failure_retains_previous_best.2.2 cfgC2 evW2 0 0 initialState .exprFail .missing
      rfl rfl rfl (by decide)⟩

/-! ### Claim C3 -/

/-- Configuration for the C3 counterexample run. -/
def cfgC3 : Config := ⟨2, 1, 1, 100, ["m"]⟩

/-- C3 counterexample: a run whose fitter/searcher construction raises (an
orchestration-level failure) still records a Final Result in the `finally`
block, so `get_final_best` does NOT return `none` for it — contradicting the
claim that a failed run produces no Final Result. -/
theorem C3_counterexample :
    get_final_best (run_fitting cfgC3 .initFail initialState) =
      some ⟨0, "", 2, 0⟩
    ∧ get_final_best (run_fitting cfgC3 .initFail initialState) ≠ none := by
  decide

/-- C3 amended: the Final Result is created exactly once, at run
termination, and never during the cycle loop (the loop leaves `final_best`
untouched) — but it is created at EVERY termination, including
orchestration-level failures such as fitter/searcher construction raising:
the `finally` block runs unconditionally, so `get_final_best` returns a
record (never `none`) after any run, and `is_running` is cleared. -/
theorem C3_final_result_always_recorded :
    (∀ (cfg : Config) (cyc : Nat → CycleEvent) (fuel idx : Nat) (s : EngineState),
      (runCycles cfg cyc fuel idx s).final_best = s.final_best)
    ∧ (∀ (cfg : Config) (init : InitOutcome) (s0 : EngineState),
        (get_final_best (run_fitting cfg init s0)).isSome = true
        ∧ (run_fitting cfg init s0).is_running = false) := by
  constructor
  · exact runCycles_final_best
  · intro cfg init s0
    cases init with
    | initFail => exact ⟨rfl, rfl⟩
    | ok cyc => exact ⟨rfl, rfl⟩

/-! ### Claim C5 -/

/-- Configuration whose estimate fallback adds `2 × 3 = 6` calls. -/
def cfgC5 : Config := ⟨1, 2, 3, 100, ["m"]⟩

/-- C5 counterexample: a diary read failure adds the estimate (6), and a
subsequent successful re-scan REPLACES the counter with the diary-derived
count (1) — the counter decreases from 6 to 1, so `total_api_calls` is not
monotone non-decreasing under every interleaving of successful re-scans and
read-failure fallbacks. -/
theorem C5_counterexample :
    (update_api_calls cfgC5 .readError initialState).total_api_calls = 6
    ∧ (update_api_calls cfgC5 (.present 1)
        (update_api_calls cfgC5 .readError initialState)).total_api_calls = 1
    ∧ ¬((update_api_calls cfgC5 .readError initialState).total_api_calls ≤
        (update_api_calls cfgC5 (.present 1)
          (update_api_calls cfgC5 .readError initialState)).total_api_calls) := by
  decide

theorem applyDiary_total_nonneg (cfg : Config) (d : DiaryOutcome) (s : EngineState)
    (h : 0 ≤ s.total_api_calls) : 0 ≤ (applyDiary cfg d s).total_api_calls := by
  cases d with
  | present n => simp [applyDiary]
  | missing => simpa [applyDiary] using h
  | readError =>
    simp only [applyDiary]
    have : (0 : ℤ) ≤ (cfg.unit_interaction_num * cfg.island_num : ℕ) := Int.natCast_nonneg _
    omega

theorem runEpochs_total_nonneg (cfg : Config) (ev : Nat → EpochEvent) :
    ∀ fuel batch s, 0 ≤ s.total_api_calls →
      0 ≤ (runEpochs cfg ev fuel batch s).total_api_calls := by
  intro fuel
  induction fuel with
  | zero => intro batch s h; exact h
  | succ n ih =>
    intro batch s h
    have hbody : ∀ q d b, 0 ≤ (epochBody cfg q d b
        (noteStop (ev batch).externStop s)).total_api_calls := by
      intro q d b
      show 0 ≤ (appendFrame cfg b (update_api_calls cfg d
        (applyQuery q (noteStop (ev batch).externStop s)))).total_api_calls
      rw [appendFrame_total_api_calls, update_api_calls, pushRecord_total_api_calls]
      exact applyDiary_total_nonneg cfg d _ (by simpa using h)
    simp only [runEpochs]
    split
    · simpa using h
    · split
      · simpa using h
      · exact ih _ _ (by simpa using h)
      · split
        · apply hbody
        · exact ih _ _ (hbody _ _ _)

theorem cycleBody_total_nonneg (cfg : Config) (ce : CycleEvent) (i : Nat) (s : EngineState)
    (h : 0 ≤ s.total_api_calls) : 0 ≤ (cycleBody cfg ce i s).total_api_calls := by
  have hrun := runEpochs_total_nonneg cfg ce.epochs cfg.unit_interaction_num 0
    (setCycle i s) (by simpa using h)
  simp only [cycleBody]
  split
  · simpa using hrun
  · exact hrun

theorem runCycles_total_nonneg (cfg : Config) (cyc : Nat → CycleEvent) :
    ∀ fuel i s, 0 ≤ s.total_api_calls →
      0 ≤ (runCycles cfg cyc fuel i s).total_api_calls := by
  intro fuel
  induction fuel with
  | zero => intro i s h; exact h
  | succ n ih =>
    intro i s h
    simp only [runCycles]
    split
    · simpa using h
    · split
      · exact cycleBody_total_nonneg cfg _ _ _ (by simpa using h)
      · exact ih _ _ (cycleBody_total_nonneg cfg _ _ _ (by simpa using h))

/-- C5 amended: `total_api_calls` is always non-negative (in every run and
after every individual update), and every read-failure fallback is monotone
non-decreasing; but a successful diary re-scan sets the counter to the
diary-derived count outright, which the counterexample shows can be lower
than a previously estimate-inflated value — monotonicity holds only along
fallback updates, not across successful re-scans. -/
theorem C5_api_calls_nonneg_fallback_monotone :
    (∀ (cfg : Config) (d : DiaryOutcome) (s : EngineState), 0 ≤ s.total_api_calls →
      0 ≤ (update_api_calls cfg d s).total_api_calls)
    ∧ (∀ (cfg : Config) (s : EngineState),
        s.total_api_calls ≤ (update_api_calls cfg .readError s).total_api_calls)
    ∧ (∀ (cfg : Config) (n : Nat) (s : EngineState),
        (update_api_calls cfg (.present n) s).total_api_calls = (n : ℤ))
    ∧ (∀ (cfg : Config) (init : InitOutcome),
        0 ≤ (run_fitting cfg init initialState).total_api_calls) := by
  refine ⟨?_, ?_, ?_, ?_⟩
  · intro cfg d s h
    rw [update_api_calls, pushRecord_total_api_calls]
    exact applyDiary_total_nonneg cfg d s h
  · intro cfg s
    rw [update_api_calls, pushRecord_total_api_calls]
    simp only [applyDiary]
    have : (0 : ℤ) ≤ (cfg.unit_interaction_num * cfg.island_num : ℕ) := Int.natCast_nonneg _
    omega
  · intro cfg n s
    rw [update_api_calls, pushRecord_total_api_calls]
    rfl
  · intro cfg init
    cases init with
    | initFail => exact le_refl 0
    | ok cyc =>
      have := runCycles_total_nonneg cfg cyc cfg.cycle_num 0
        (resetState cfg initialState) (le_refl 0)
      simpa [run_fitting] using this

/-- Witness for C5: the non-negativity preservation applied at a concrete
state with a concrete diary outcome. -/
theorem C5_api_calls_nonneg_fallback_monotone_witness :
    (0 : ℤ) ≤ initialState.total_api_calls
    ∧ 0 ≤ (update_api_calls cfgC5 .readError initialState).total_api_calls :=
  ⟨by decide,
   C5_api_calls_nonneg_fallback_monotone.1 cfgC5 .readError initialState (by decide)⟩

/-! ### Claim C9 -/

/-- Configuration whose estimate fallback would add `2 × 3 = 6` calls. -/
def cfgC9 : Config := ⟨1, 2, 3, 100, ["m"]⟩

/-- C9 counterexample: when the diary file is MISSING (falsy path or
non-existent file), no exception is raised, the `except` fallback never
runs, and `total_api_calls` stays unchanged — the claim that a missing file
also triggers the `epochs_per_cycle × island_count` estimate is false. -/
theorem C9_counterexample :
    (update_api_calls cfgC9 .missing initialState).total_api_calls = 0
    ∧ ¬((update_api_calls cfgC9 .missing initialState).total_api_calls =
        initialState.total_api_calls +
          (cfgC9.unit_interaction_num * cfgC9.island_num : ℕ)) := by
  decide

/-- C9 amended: the estimate fallback (adding
`epochs_per_cycle × island_count` to the running total, with a warning) is
triggered only by an exception raised while obtaining or reading the diary;
a missing diary file silently leaves `total_api_calls` unchanged.  In every
diary outcome the run continues and exactly one audit record is still
appended (modulo trimming). -/
theorem C9_estimate_only_on_read_error :
    (∀ (cfg : Config) (s : EngineState),
      (update_api_calls cfg .missing s).total_api_calls = s.total_api_calls)
    ∧ (∀ (cfg : Config) (s : EngineState),
        (update_api_calls cfg .readError s).total_api_calls =
          s.total_api_calls + (cfg.unit_interaction_num * cfg.island_num : ℕ))
    ∧ (∀ (cfg : Config) (d : DiaryOutcome) (s : EngineState),
        ∃ k, (update_api_calls cfg d s).api_calls_log =
          (s.api_calls_log ++ [mkCallRecord cfg (applyDiary cfg d s)]).drop k) := by
  refine ⟨?_, ?_, ?_⟩
  · intro cfg s
    rw [update_api_calls, pushRecord_total_api_calls]
    rfl
  · intro cfg s
    rw [update_api_calls, pushRecord_total_api_calls]
    rfl
  · intro cfg d s
    rw [update_api_calls]
    simp only [pushRecord]
    split
    · exact ⟨((applyDiary cfg d s).api_calls_log ++
        [mkCallRecord cfg (applyDiary cfg d s)]).length - 1000, by simp⟩
    · exact ⟨0, by simp⟩

/-! ### Claim C8 -/

/-- C8: (1) `get_progress_frames none` returns the whole buffer; (2) polling
with a stale version `v` below every retained version returns the full
remaining buffer, never an error; (3) appending evicts only from the front
(the new buffer is a suffix of the old buffer plus the new frame) while
`state_version` always advances by one; (4) the new frame's version is
strictly greater than every retained version — version numbers are never
reused or renumbered. -/
theorem C8_stale_poll_gets_full_tail :
    (∀ s : EngineState, get_progress_frames none s = s.progress_frames)
    ∧ (∀ (s : EngineState) (v : Nat), (∀ f ∈ s.progress_frames, v < f.version) →
        get_progress_frames (some v) s = s.progress_frames)
    ∧ (∀ (cfg : Config) (batch : Nat) (s : EngineState),
        ∃ k, (appendFrame cfg batch s).progress_frames =
            (s.progress_frames ++ [mkFrame cfg batch s]).drop k
          ∧ (appendFrame cfg batch s).state_version = s.state_version + 1)
    ∧ (∀ (cfg : Config) (batch : Nat) (s : EngineState), framesInv s →
        ∀ f ∈ s.progress_frames, f.version < (mkFrame cfg batch s).version) := by
  refine ⟨?_, ?_, ?_, ?_⟩
  · intro s; rfl
  · intro s v h
    apply List.filter_eq_self.mpr
    intro f hf
    simpa using h f hf
  · intro cfg batch s
    by_cases hgt : (s.progress_frames ++ [mkFrame cfg batch s]).length > 2000
    · refine ⟨(s.progress_frames ++ [mkFrame cfg batch s]).length - 2000, ?_, rfl⟩
      simp only [appendFrame]
      rw [if_pos hgt]
    · refine ⟨0, ?_, rfl⟩
      simp only [appendFrame]
      rw [if_neg hgt]
      simp
  · intro cfg batch s hinv f hf
    have hm : f.version ∈ s.progress_frames.map Frame.version :=
      List.mem_map.mpr ⟨f, hf, rfl⟩
    rw [hinv.1] at hm
    have hub := (List.mem_range'_1.mp hm).2
    have h2 := hinv.2
    show f.version < s.state_version + 1
    omega

/-- A state with one retained frame of version 7, for the C8 witness. -/
def sW8 : EngineState :=
  { initialState with progress_frames := [⟨7, 1, 1, 1, 5, "e"⟩], state_version := 7 }

/-- Configuration used by the C8 witness. -/
def cfgW8 : Config := ⟨1, 1, 1, 100, ["m"]⟩

/-- Witness for C8: polling with the evicted version 5 returns the full
remaining buffer, and the next frame's version is fresh. -/
theorem C8_stale_poll_gets_full_tail_witness :
    get_progress_frames (some 5) sW8 = sW8.progress_frames
    ∧ (⟨7, 1, 1, 1, 5, "e"⟩ : Frame).version < (mkFrame cfgW8 0 sW8).version :=
  ⟨C8_stale_poll_gets_full_tail.2.1 sW8 5 (by decide),
   C8_stale_poll_gets_full_tail.2.2.2 cfgW8 0 sW8 (by decide) _ (by decide)⟩

/-! ### Claim C10 -/

theorem pushRecord_length_le (cfg : Config) (s : EngineState)
    (h : s.api_calls_log.length ≤ 1000) :
    (pushRecord cfg s).api_calls_log.length ≤ 1000 := by
  simp only [pushRecord]
  split
  · rename_i hgt
    rw [List.length_drop]
    omega
  · rename_i hle
    rw [List.length_append]
    simp only [List.length_append, List.length_singleton] at hle
    simp
    omega

/-- C10: (1) each `_update_api_calls` keeps the audit log within 1000
records; (2) in every run the audit log never exceeds 1000 records; (3) the
update appends the new record at the back and evicts only from the front,
and nothing is evicted while the log is below the bound. -/
theorem C10_audit_log_bounded :
    (∀ (cfg : Config) (d : DiaryOutcome) (s : EngineState),
      s.api_calls_log.length ≤ 1000 →
      (update_api_calls cfg d s).api_calls_log.length ≤ 1000)
    ∧ (∀ (cfg : Config) (init : InitOutcome),
        (run_fitting cfg init initialState).api_calls_log.length ≤ 1000)
    ∧ (∀ (cfg : Config) (d : DiaryOutcome) (s : EngineState),
        ∃ k, (update_api_calls cfg d s).api_calls_log =
            (s.api_calls_log ++ [mkCallRecord cfg (applyDiary cfg d s)]).drop k
          ∧ (s.api_calls_log.length < 1000 → k = 0)) := by
  refine ⟨?_, ?_, ?_⟩
  · intro cfg d s h
    rw [update_api_calls]
    exact pushRecord_length_le cfg _ (by simpa using h)
  · intro cfg init
    exact run_fitting_log_invariant cfg init initialState (fun l => l.length ≤ 1000)
      (fun t ht => pushRecord_length_le cfg t ht) (by simp)
  · intro cfg d s
    rw [update_api_calls]
    simp only [pushRecord]
    split
    · rename_i hgt
      refine ⟨((applyDiary cfg d s).api_calls_log ++
          [mkCallRecord cfg (applyDiary cfg d s)]).length - 1000, by simp, ?_⟩
      intro hlt
      simp only [List.length_append, List.length_singleton] at hgt
      simp only [applyDiary_api_calls_log] at hgt
      omega
    · exact ⟨0, by simp, fun _ => rfl⟩

/-- Witness for C10: the bound-preservation applied to a concrete state with
an empty log. -/
theorem C10_audit_log_bounded_witness :
    (update_api_calls cfgC9 .missing initialState).api_calls_log.length ≤ 1000 :=
  C10_audit_log_bounded.1 cfgC9 .missing initialState (by decide)

end FittingEngine
